import Mathlib

/-!
Verification of the TaskForm dialog component (src/components/TaskForm.tsx).

The component is shallowly embedded: JavaScript numbers are modelled by
`JSNum` (a rational, or NaN / ±Infinity), JavaScript strings by Lean
`String` with explicit `jsTrim` / `jsToLower` helpers mirroring
`String.prototype.trim` / `toLowerCase`, component state by `FormState`,
and the side-effecting handlers by pure functions returning the updated
state together with the optional emitted payload.
-/

namespace TaskForm

/-- Whitespace characters stripped by `String.prototype.trim` (ASCII subset). -/
def isJsWhitespace (c : Char) : Bool :=
  c = ' ' || c = '\t' || c = '\n' || c = '\r'

/-- Model of `String.prototype.trim`: strip leading and trailing whitespace. -/
def jsTrim (s : String) : String :=
  ⟨((s.data.dropWhile isJsWhitespace).reverse.dropWhile isJsWhitespace).reverse⟩

/-- Model of `String.prototype.toLowerCase` (ASCII letters). -/
def jsToLower (s : String) : String :=
  ⟨s.data.map Char.toLower⟩

/-- A JavaScript number: a finite rational, NaN, or a signed infinity. -/
inductive JSNum where
  | num (q : ℚ)
  | nan
  | inf
  | negInf
deriving DecidableEq

/-- `Number.isFinite`. -/
def JSNum.isFinite : JSNum → Bool
  | .num _ => true
  | _ => false

/-- The JavaScript comparison `n < 0` (false on NaN). -/
def JSNum.ltZero : JSNum → Bool
  | .num q => decide (q < 0)
  | .negInf => true
  | _ => false

/-- The JavaScript comparison `n <= 0` (false on NaN). -/
def JSNum.leZero : JSNum → Bool
  | .num q => decide (q ≤ 0)
  | .negInf => true
  | _ => false

/-- The JavaScript comparison `n > 0` (false on NaN). -/
def JSNum.gtZero : JSNum → Bool
  | .num q => decide (0 < q)
  | .inf => true
  | _ => false

/-- The JavaScript comparison `n >= 0` (false on NaN). -/
def JSNum.geZero : JSNum → Bool
  | .num q => decide (0 ≤ q)
  | .inf => true
  | _ => false

/-- The `Priority` enum. -/
inductive Priority where
  | high
  | medium
  | low
deriving DecidableEq

/-- The `Status` enum. -/
inductive Status where
  | todo
  | inProgress
  | done
deriving DecidableEq

/-- The `Task` record from `@/types`, as used by the component. -/
structure Task where
  id : String
  title : String
  revenue : JSNum
  timeTaken : JSNum
  priority : Priority
  status : Status
  notes : Option String
  createdAt : String
  completedAt : Option String
deriving DecidableEq

/-- The component's local state: the six field states (`''` for the numeric
and select fields is `none`) and the two inline error-message states. -/
structure FormState where
  title : String
  revenue : Option JSNum
  timeTaken : Option JSNum
  priority : Option Priority
  status : Option Status
  notes : String
  revenueError : Option String
  timeError : Option String
deriving DecidableEq

/-- The payload handed to `onSubmit`: `Omit<Task, 'id'> & { id?: string }`. -/
structure Payload where
  id : Option String
  title : String
  revenue : JSNum
  timeTaken : JSNum
  priority : Priority
  status : Status
  notes : Option String
  createdAt : String
  completedAt : Option String
deriving DecidableEq

/-- The `duplicateTitle` memo (TaskForm.tsx lines 61-66). -/
def duplicateTitle (title : String) (existingTitles : List String)
    (initial : Option Task) : Bool :=
  let current := jsToLower (jsTrim title)
  if current = "" then false
  else
    let others := match initial with
      | some init =>
          existingTitles.filter (fun t => !(jsToLower t == jsToLower init.title))
      | none => existingTitles
    (others.map jsToLower).contains current

/-- `typeof x === 'number' && Number.isFinite(x) && x >= 0`, for a
`number | ''` field. -/
def isFiniteNonnegNum (r : Option JSNum) : Bool :=
  match r with
  | some n => n.isFinite && n.geZero
  | none => false

/-- `typeof x === 'number' && Number.isFinite(x) && x > 0`, for a
`number | ''` field. -/
def isFinitePosNum (r : Option JSNum) : Bool :=
  match r with
  | some n => n.isFinite && n.gtZero
  | none => false

/-- The `canSubmit` predicate (TaskForm.tsx lines 68-74). -/
def canSubmit (s : FormState) (existingTitles : List String)
    (initial : Option Task) : Bool :=
  !(jsTrim s.title == "") &&
  !(duplicateTitle s.title existingTitles initial) &&
  isFiniteNonnegNum s.revenue &&
  isFinitePosNum s.timeTaken &&
  s.priority.isSome &&
  s.status.isSome

/-- A text-field input event: the empty string, or a non-empty string
whose `Number(v)` conversion is the given `JSNum`.  The handlers inspect
the raw string only through emptiness and `Number(v)`. -/
inductive InputVal where
  | empty
  | parsed (n : JSNum)
deriving DecidableEq

/-- `handleRevenueChange` (TaskForm.tsx lines 76-91). -/
def handleRevenueChange (v : InputVal) (s : FormState) : FormState :=
  match v with
  | .empty =>
      { s with revenue := none, revenueError := some "Revenue is required" }
  | .parsed num =>
      if !num.isFinite || num.ltZero then
        { s with revenue := some num,
                 revenueError := some "Enter a valid non-negative number" }
      else
        { s with revenue := some num, revenueError := none }

/-- `handleTimeChange` (TaskForm.tsx lines 93-108). -/
def handleTimeChange (v : InputVal) (s : FormState) : FormState :=
  match v with
  | .empty =>
      { s with timeTaken := none, timeError := some "Time taken is required" }
  | .parsed num =>
      if !num.isFinite || num.leZero then
        { s with timeTaken := some num,
                 timeError := some "Enter a positive number (> 0)" }
      else
        { s with timeTaken := some num, timeError := none }

/-- `typeof x === 'number' ? x : NaN`, for the `number | ''` fields. -/
def numOrNaN (r : Option JSNum) : JSNum :=
  match r with
  | some n => n
  | none => .nan

/-- The revenue re-validation failure condition in `handleSubmit`:
`!Number.isFinite(revNum) || revNum < 0`. -/
def revInvalid (n : JSNum) : Bool :=
  !n.isFinite || n.ltZero

/-- The timeTaken re-validation failure condition in `handleSubmit`:
`!Number.isFinite(timeNum) || timeNum <= 0`. -/
def timeInvalid (n : JSNum) : Bool :=
  !n.isFinite || n.leZero

/-- `handleSubmit` (TaskForm.tsx lines 110-150).  Returns the payload
passed to `onSubmit` (`none` when the handler aborts) together with the
component state after the error setters have run; `new Date().toISOString()`
is the parameter `now`. -/
def handleSubmit (s : FormState) (initial : Option Task) (now : String) :
    Option Payload × FormState :=
  let revNum := numOrNaN s.revenue
  let timeNum := numOrNaN s.timeTaken
  let s1 := if revInvalid revNum then
      { s with revenueError := some "Enter a valid non-negative number" }
    else s
  let s2 := if timeInvalid timeNum then
      { s1 with timeError := some "Enter a positive number (> 0)" }
    else s1
  if revInvalid revNum || timeInvalid timeNum then (none, s2)
  else
    (some {
      id := match initial with
        | some init => if init.id == "" then none else some init.id
        | none => none
      title := jsTrim s.title
      revenue := if revNum.isFinite then revNum else .num 0
      timeTaken := if timeNum.gtZero then timeNum else .num 1
      priority := s.priority.getD .medium
      status := s.status.getD .todo
      notes := if jsTrim s.notes == "" then none else some (jsTrim s.notes)
      createdAt := match initial with
        | some init => init.createdAt
        | none => now
      completedAt := if s.status == some .done then
          some ((initial.bind Task.completedAt).getD now)
        else none }, s)

/-- The callback invocations performed by `handleSubmit`: when a payload is
built, `onSubmit(payload)` then `onClose()`; otherwise none. -/
inductive Effect where
  | submit (p : Payload)
  | close
deriving DecidableEq

/-- The sequence of callback invocations for a given submit outcome. -/
def effectsOf (r : Option Payload) : List Effect :=
  match r with
  | some p => [.submit p, .close]
  | none => []

/-- The open-transition `useEffect` body (TaskForm.tsx lines 40-59). -/
def openEffect (open_ : Bool) (initial : Option Task) (s : FormState) :
    FormState :=
  if !open_ then s
  else match initial with
    | some init =>
        { s with title := init.title,
                 revenue := some init.revenue,
                 timeTaken := some init.timeTaken,
                 priority := some init.priority,
                 status := some init.status,
                 notes := init.notes.getD "" }
    | none =>
        { title := ""
          revenue := none
          timeTaken := none
          priority := none
          status := none
          notes := ""
          revenueError := none
          timeError := none }

/-! ## Spec-side predicates

These definitions follow the wording of the specification (not the code)
and are compared against the embedded code above. -/

/-- The spec's duplicate condition: some entry of `existingTitles`, other
than (entries case-insensitively equal to) the initial task's own title
when editing, is case-insensitively equal to the trimmed title. -/
def specDuplicate (title : String) (existingTitles : List String)
    (initial : Option Task) : Bool :=
  existingTitles.any (fun t =>
    (jsToLower (jsTrim title) == jsToLower t) &&
    (match initial with
     | some init => !(jsToLower t == jsToLower init.title)
     | none => true))

/-- The spec's "revenue is a finite number >= 0" for a `number | ''` field. -/
def finiteNonneg (r : Option JSNum) : Prop :=
  ∃ q : ℚ, r = some (.num q) ∧ 0 ≤ q

/-- The spec's "timeTaken is a finite number > 0" for a `number | ''` field. -/
def finitePos (r : Option JSNum) : Prop :=
  ∃ q : ℚ, r = some (.num q) ∧ 0 < q

/-! ## Concrete states used to instantiate the theorems below -/

/-- A valid state whose status is `Done`. -/
def doneState : FormState :=
  ⟨"Report", some (.num 3), some (.num 2), some .high, some .done, "", none, none⟩

/-- A valid state used for an edit that must keep `createdAt`. -/
def editKeepState : FormState :=
  ⟨"Report", some (.num 3), some (.num 2), some .high, some .todo, "", none, none⟩

/-- An existing task with an id and a `createdAt`. -/
def priorTask : Task :=
  ⟨"t-1", "Report", .num 3, .num 2, .high, .todo, none,
   "2024-06-01T00:00:00.000Z", none⟩

/-- A valid state with paddable title and blank-ish notes. -/
def validState : FormState :=
  ⟨" New task ", some (.num 4), some (.num 3), none, none, "  ", none, none⟩

/-- A valid state for editing a task whose stored id is the empty string. -/
def editState : FormState :=
  ⟨"Renamed", some (.num 5), some (.num 2), some .high, some .todo, "", none,
   none⟩

/-- An existing task whose id is the empty string. -/
def emptyIdTask : Task :=
  ⟨"", "Old title", .num 1, .num 1, .low, .todo, none,
   "2024-01-01T00:00:00.000Z", none⟩

/-- A state whose numeric fields are valid but which fails every other
`canSubmit` requirement: empty title, no priority, no status. -/
def gateFreeState : FormState :=
  ⟨"", some (.num 1), some (.num 1), none, none, "", none, none⟩

/-! ## Helper lemmas -/

theorem jsToLower_eq_empty_iff (s : String) : jsToLower s = "" ↔ s = "" := by
  cases s with
  | mk data =>
      simp [jsToLower, String.ext_iff]

theorem isFiniteNonnegNum_iff (r : Option JSNum) :
    isFiniteNonnegNum r = true ↔ finiteNonneg r := by
  cases r with
  | none => simp [isFiniteNonnegNum, finiteNonneg]
  | some n =>
      cases n <;>
        simp [isFiniteNonnegNum, finiteNonneg, JSNum.isFinite, JSNum.geZero]

theorem isFinitePosNum_iff (r : Option JSNum) :
    isFinitePosNum r = true ↔ finitePos r := by
  cases r with
  | none => simp [isFinitePosNum, finitePos]
  | some n =>
      cases n <;>
        simp [isFinitePosNum, finitePos, JSNum.isFinite, JSNum.gtZero]

theorem revInvalid_numOrNaN (r : Option JSNum) :
    revInvalid (numOrNaN r) = !(isFiniteNonnegNum r) := by
  cases r with
  | none => rfl
  | some n =>
      cases n with
      | num q =>
          simp [revInvalid, numOrNaN, isFiniteNonnegNum, JSNum.isFinite,
            JSNum.ltZero, JSNum.geZero, ← decide_not, not_le]
      | nan => rfl
      | inf => rfl
      | negInf => rfl

theorem timeInvalid_numOrNaN (r : Option JSNum) :
    timeInvalid (numOrNaN r) = !(isFinitePosNum r) := by
  cases r with
  | none => rfl
  | some n =>
      cases n with
      | num q =>
          simp [timeInvalid, numOrNaN, isFinitePosNum, JSNum.isFinite,
            JSNum.leZero, JSNum.gtZero, ← decide_not, not_lt]
      | nan => rfl
      | inf => rfl
      | negInf => rfl

/-- The payload record `handleSubmit` builds once validation passes, with
the two re-validation conditionals already resolved (validation guarantees
`revNum` finite and `timeNum > 0`); named here for reuse in statements. -/
def emittedPayload (s : FormState) (initial : Option Task) (now : String) :
    Payload where
  id := match initial with
    | some init => if init.id == "" then none else some init.id
    | none => none
  title := jsTrim s.title
  revenue := numOrNaN s.revenue
  timeTaken := numOrNaN s.timeTaken
  priority := s.priority.getD .medium
  status := s.status.getD .todo
  notes := if jsTrim s.notes == "" then none else some (jsTrim s.notes)
  createdAt := match initial with
    | some init => init.createdAt
    | none => now
  completedAt := if s.status == some .done then
      some ((initial.bind Task.completedAt).getD now)
    else none

theorem handleSubmit_emit (s : FormState) (initial : Option Task) (now : String)
    (h1 : isFiniteNonnegNum s.revenue = true)
    (h2 : isFinitePosNum s.timeTaken = true) :
    handleSubmit s initial now = (some (emittedPayload s initial now), s) := by
  have hr := revInvalid_numOrNaN s.revenue
  have ht := timeInvalid_numOrNaN s.timeTaken
  rw [h1] at hr
  rw [h2] at ht
  obtain ⟨q, hq, hq0⟩ := (isFiniteNonnegNum_iff s.revenue).mp h1
  obtain ⟨q2, hq2, hq20⟩ := (isFinitePosNum_iff s.timeTaken).mp h2
  simp only [handleSubmit, hr, ht, Bool.or_self, Bool.false_or, if_false,
    Bool.not_true]
  simp [emittedPayload, hq, hq2, numOrNaN, JSNum.isFinite, JSNum.gtZero, hq20]

theorem handleSubmit_abort (s : FormState) (initial : Option Task) (now : String)
    (h : isFiniteNonnegNum s.revenue = false ∨ isFinitePosNum s.timeTaken = false) :
    handleSubmit s initial now =
      (none,
       { s with
         revenueError := if isFiniteNonnegNum s.revenue then s.revenueError
           else some "Enter a valid non-negative number",
         timeError := if isFinitePosNum s.timeTaken then s.timeError
           else some "Enter a positive number (> 0)" }) := by
  cases h1 : isFiniteNonnegNum s.revenue <;> cases h2 : isFinitePosNum s.timeTaken
  · simp [handleSubmit, revInvalid_numOrNaN, timeInvalid_numOrNaN, h1, h2]
  · simp [handleSubmit, revInvalid_numOrNaN, timeInvalid_numOrNaN, h1, h2]
  · simp [handleSubmit, revInvalid_numOrNaN, timeInvalid_numOrNaN, h1, h2]
  · simp [h1, h2] at h

theorem handleSubmit_emit_inv (s : FormState) (initial : Option Task)
    (now : String) (p : Payload)
    (h : (handleSubmit s initial now).1 = some p) :
    isFiniteNonnegNum s.revenue = true ∧ isFinitePosNum s.timeTaken = true ∧
    p = emittedPayload s initial now := by
  cases h1 : isFiniteNonnegNum s.revenue <;> cases h2 : isFinitePosNum s.timeTaken
  · rw [handleSubmit_abort s initial now (Or.inl h1)] at h
    simp at h
  · rw [handleSubmit_abort s initial now (Or.inl h1)] at h
    simp at h
  · rw [handleSubmit_abort s initial now (Or.inr h2)] at h
    simp at h
  · rw [handleSubmit_emit s initial now h1 h2] at h
    simp only [Option.some.injEq] at h
    exact ⟨rfl, rfl, h.symm⟩

theorem contains_map (l : List String) (f : String → String) (c : String) :
    ((l.map f).contains c) = l.any (fun t => c == f t) := by
  induction l with
  | nil => rfl
  | cons x xs ih =>
      rw [List.map_cons, List.contains_cons, List.any_cons, ih]

theorem contains_map_filter (l : List String) (p : String → Bool)
    (f : String → String) (c : String) :
    ((l.filter p).map f).contains c = l.any (fun t => (c == f t) && p t) := by
  induction l with
  | nil => rfl
  | cons x xs ih =>
      by_cases hp : p x = true
      · rw [List.filter_cons_of_pos hp, List.map_cons, List.contains_cons,
          List.any_cons, ih, hp, Bool.and_true]
      · rw [List.filter_cons_of_neg hp, List.any_cons, ih,
          Bool.eq_false_iff.mpr hp, Bool.and_false, Bool.false_or]

/-! ## The claims -/

/-- Claim C1 (amended): for every existingTitles list, title state and
optional initial task, the duplicate-title flag is true exactly when the
trimmed title is non-empty and equals (case-insensitively) some entry of
existingTitles other than the initial task's own title when editing; and a
true duplicate-title flag disables submission. -/
theorem duplicateTitle_characterization (title : String) (ex : List String)
    (initial : Option Task) (s : FormState) :
    duplicateTitle title ex initial
      = (!(jsTrim title == "") && specDuplicate title ex initial) ∧
    (duplicateTitle s.title ex initial = true →
      canSubmit s ex initial = false) := by
  constructor
  · by_cases h0 : jsTrim title = ""
    · have hcur : jsToLower (jsTrim title) = "" := by rw [h0]; rfl
      simp [duplicateTitle, hcur, h0]
      exact fun hh => absurd rfl hh
    · have hcur : ¬(jsToLower (jsTrim title) = "") := fun hh =>
        h0 ((jsToLower_eq_empty_iff _).mp hh)
      cases initial with
      | none =>
          rw [Bool.eq_iff_iff]
          simp only [duplicateTitle, specDuplicate, contains_map]
          simp [hcur, h0]
      | some init =>
          rw [Bool.eq_iff_iff]
          simp only [duplicateTitle, specDuplicate, contains_map_filter]
          simp [hcur, h0]
  · intro h
    simp [canSubmit, h]

/-- Claim C1, counterexample to the claim as stated: with title state `""`
and existingTitles `[""]`, the trimmed lower-cased title equals the entry
`""` case-insensitively, yet the flag is false, because the code returns
false outright for an empty trimmed title. -/
theorem duplicateTitle_empty_title_cex :
    duplicateTitle "" [""] none = false ∧ specDuplicate "" [""] none = true := by
  decide

/-- Claim C2: the submit handler invokes onSubmit exactly once followed by
onClose exactly once iff revenue is a finite number >= 0 and timeTaken is a
finite number > 0; otherwise it invokes neither callback and sets the
inline error message of each failing numeric field, leaving the other
error state untouched (and, being a total function, throws nothing). -/
theorem handleSubmit_callback_discipline (s : FormState) (initial : Option Task)
    (now : String) :
    ((finiteNonneg s.revenue ∧ finitePos s.timeTaken) ↔
        ∃ p, effectsOf (handleSubmit s initial now).1 =
          [Effect.submit p, Effect.close]) ∧
    (¬(finiteNonneg s.revenue ∧ finitePos s.timeTaken) →
        effectsOf (handleSubmit s initial now).1 = [] ∧
        (handleSubmit s initial now).2.revenueError =
          (if isFiniteNonnegNum s.revenue then s.revenueError
           else some "Enter a valid non-negative number") ∧
        (handleSubmit s initial now).2.timeError =
          (if isFinitePosNum s.timeTaken then s.timeError
           else some "Enter a positive number (> 0)")) := by
  by_cases h1 : isFiniteNonnegNum s.revenue = true <;>
    by_cases h2 : isFinitePosNum s.timeTaken = true
  · rw [handleSubmit_emit s initial now h1 h2]
    exact ⟨⟨fun _ => ⟨emittedPayload s initial now, rfl⟩,
        fun _ => ⟨(isFiniteNonnegNum_iff s.revenue).mp h1,
          (isFinitePosNum_iff s.timeTaken).mp h2⟩⟩,
      fun hn => absurd ⟨(isFiniteNonnegNum_iff s.revenue).mp h1,
        (isFinitePosNum_iff s.timeTaken).mp h2⟩ hn⟩
  · rw [handleSubmit_abort s initial now (Or.inr (Bool.eq_false_iff.mpr h2))]
    refine ⟨⟨fun hv => absurd ((isFinitePosNum_iff s.timeTaken).mpr hv.2) h2,
        fun hp => ?_⟩, fun _ => ⟨rfl, rfl, rfl⟩⟩
    obtain ⟨p, hp⟩ := hp
    simp [effectsOf] at hp
  · rw [handleSubmit_abort s initial now (Or.inl (Bool.eq_false_iff.mpr h1))]
    refine ⟨⟨fun hv => absurd ((isFiniteNonnegNum_iff s.revenue).mpr hv.1) h1,
        fun hp => ?_⟩, fun _ => ⟨rfl, rfl, rfl⟩⟩
    obtain ⟨p, hp⟩ := hp
    simp [effectsOf] at hp
  · rw [handleSubmit_abort s initial now (Or.inl (Bool.eq_false_iff.mpr h1))]
    refine ⟨⟨fun hv => absurd ((isFiniteNonnegNum_iff s.revenue).mpr hv.1) h1,
        fun hp => ?_⟩, fun _ => ⟨rfl, rfl, rfl⟩⟩
    obtain ⟨p, hp⟩ := hp
    simp [effectsOf] at hp

/-- Claim C3: an emitted payload's completedAt is defined iff the status
state is Done at submit time; when Done it is the initial task's existing
completedAt when present and a current timestamp otherwise, and for any
other status it is undefined even if the initial task had one. -/
theorem handleSubmit_completedAt (s : FormState) (initial : Option Task)
    (now : String) (p : Payload)
    (h : (handleSubmit s initial now).1 = some p) :
    (p.completedAt ≠ none ↔ s.status = some Status.done) ∧
    (s.status = some Status.done →
       p.completedAt = some ((initial.bind Task.completedAt).getD now)) ∧
    (s.status ≠ some Status.done → p.completedAt = none) := by
  obtain ⟨h1, h2, hp⟩ := handleSubmit_emit_inv s initial now p h
  subst hp
  by_cases hd : s.status = some Status.done
  · simp [emittedPayload, hd]
  · simp [emittedPayload, hd]

theorem handleSubmit_completedAt_witness :
    (emittedPayload doneState none "2025-01-01T00:00:00.000Z").completedAt ≠
        none ↔
      doneState.status = some Status.done :=
  (handleSubmit_completedAt doneState none "2025-01-01T00:00:00.000Z"
    (emittedPayload doneState none "2025-01-01T00:00:00.000Z") (by decide)).1

/-- Claim C4 (amended): every emitted payload has the trimmed title, the
revenue state (coerced to 0 only if non-finite), the timeTaken state
(floored to 1 only if non-positive), priority defaulting to Medium and
status to Todo when unset, notes trimmed with blank mapped to undefined;
the original id is attached exactly when editing an existing task whose id
is a non-empty string — an initial task with an empty id yields a payload
without id, and creation never attaches one. -/
theorem handleSubmit_payload_shape (s : FormState) (initial : Option Task)
    (now : String) (p : Payload)
    (h : (handleSubmit s initial now).1 = some p) :
    p.title = jsTrim s.title ∧
    p.revenue = (if (numOrNaN s.revenue).isFinite then numOrNaN s.revenue
      else JSNum.num 0) ∧
    p.timeTaken = (if (numOrNaN s.timeTaken).gtZero then numOrNaN s.timeTaken
      else JSNum.num 1) ∧
    p.priority = s.priority.getD Priority.medium ∧
    p.status = s.status.getD Status.todo ∧
    p.notes = (if jsTrim s.notes = "" then none else some (jsTrim s.notes)) ∧
    (∀ init, initial = some init → init.id ≠ "" → p.id = some init.id) ∧
    (∀ init, initial = some init → init.id = "" → p.id = none) ∧
    (initial = none → p.id = none) := by
  obtain ⟨h1, h2, hp⟩ := handleSubmit_emit_inv s initial now p h
  obtain ⟨q, hq, hq0⟩ := (isFiniteNonnegNum_iff s.revenue).mp h1
  obtain ⟨q2, hq2, hq20⟩ := (isFinitePosNum_iff s.timeTaken).mp h2
  subst hp
  refine ⟨rfl, ?_, ?_, rfl, rfl, ?_, ?_, ?_, ?_⟩
  · simp [emittedPayload, hq, numOrNaN, JSNum.isFinite]
  · simp [emittedPayload, hq2, numOrNaN, JSNum.gtZero, hq20]
  · simp [emittedPayload]
  · intro init hinit hid
    subst hinit
    simp [emittedPayload, hid]
  · intro init hinit hid
    subst hinit
    simp [emittedPayload, hid]
  · intro hinit
    subst hinit
    rfl

theorem handleSubmit_payload_shape_witness :
    (emittedPayload validState none "NOW").title = jsTrim validState.title :=
  (handleSubmit_payload_shape validState none "NOW"
    (emittedPayload validState none "NOW") (by decide)).1

/-- Claim C4, counterexample to the claim as stated: editing the existing
task `emptyIdTask` (whose id is `""`) emits a payload, yet that payload
carries no id, because the code attaches the id only when `initial.id` is
truthy. -/
theorem payload_id_dropped_for_empty_id_edit :
    ((handleSubmit editState (some emptyIdTask) "NOW").1.map Payload.id) =
      some none := by
  decide

/-- Claim C5: the submit-enablement predicate holds exactly when the
trimmed title is non-empty, the duplicate-title flag is false, revenue is
a finite number >= 0, timeTaken is a finite number > 0, and priority and
status are both selected. -/
theorem canSubmit_iff_requirements (s : FormState) (ex : List String)
    (initial : Option Task) :
    canSubmit s ex initial = true ↔
      (jsTrim s.title ≠ "" ∧
       duplicateTitle s.title ex initial = false ∧
       finiteNonneg s.revenue ∧
       finitePos s.timeTaken ∧
       s.priority ≠ none ∧
       s.status ≠ none) := by
  simp [canSubmit, isFiniteNonnegNum_iff, isFinitePosNum_iff,
    Option.isSome_iff_ne_none, Bool.and_eq_true]
  tauto

/-- Claim C6: an emitted payload's createdAt is the initial task's
createdAt unchanged when editing, and the current timestamp when
creating. -/
theorem handleSubmit_createdAt (s : FormState) (initial : Option Task)
    (now : String) (p : Payload)
    (h : (handleSubmit s initial now).1 = some p) :
    (∀ init, initial = some init → p.createdAt = init.createdAt) ∧
    (initial = none → p.createdAt = now) := by
  obtain ⟨h1, h2, hp⟩ := handleSubmit_emit_inv s initial now p h
  subst hp
  constructor
  · intro init hinit
    subst hinit
    rfl
  · intro hinit
    subst hinit
    rfl

theorem handleSubmit_createdAt_witness :
    (emittedPayload editKeepState (some priorTask) "NOW").createdAt =
      priorTask.createdAt :=
  (handleSubmit_createdAt editKeepState (some priorTask) "NOW"
    (emittedPayload editKeepState (some priorTask) "NOW") (by decide)).1
    priorTask rfl

/-- Claim C7: the revenue change handler leaves a non-null inline error
exactly when the input is empty, parses to a non-finite number, or parses
below 0, and clears the error otherwise; the timeTaken handler does the
same with the bound "at most 0" in place of "below 0". -/
theorem change_handlers_error_iff (v : InputVal) (s : FormState) :
    ((handleRevenueChange v s).revenueError ≠ none ↔
       (v = InputVal.empty ∨
        ∃ n, v = InputVal.parsed n ∧ (n.isFinite = false ∨ n.ltZero = true))) ∧
    ((handleTimeChange v s).timeError ≠ none ↔
       (v = InputVal.empty ∨
        ∃ n, v = InputVal.parsed n ∧
          (n.isFinite = false ∨ n.leZero = true))) := by
  cases v with
  | empty => simp [handleRevenueChange, handleTimeChange]
  | parsed n =>
      constructor
      · by_cases hf : (!n.isFinite || n.ltZero) = true
        · simp only [handleRevenueChange, if_pos hf]
          simp only [Bool.or_eq_true, Bool.not_eq_true'] at hf
          simp [hf]
        · simp only [handleRevenueChange, if_neg hf]
          simp only [Bool.or_eq_true, Bool.not_eq_true'] at hf
          push_neg at hf
          simp [hf.1, hf.2]
      · by_cases hf : (!n.isFinite || n.leZero) = true
        · simp only [handleTimeChange, if_pos hf]
          simp only [Bool.or_eq_true, Bool.not_eq_true'] at hf
          simp [hf]
        · simp only [handleTimeChange, if_neg hf]
          simp only [Bool.or_eq_true, Bool.not_eq_true'] at hf
          push_neg at hf
          simp [hf.1, hf.2]

/-- Claim C8: an open transition in create mode (no initial task) resets
all six field states to blank defaults and clears both numeric error
messages. -/
theorem openEffect_create_resets (s : FormState) :
    openEffect true none s =
      { title := "", revenue := none, timeTaken := none, priority := none,
        status := none, notes := "", revenueError := none,
        timeError := none } := rfl

/-- Claim C9: the submit handler's abort check depends only on the numeric
fields — whenever revenue is a finite number >= 0 and timeTaken a finite
number > 0, invoking it emits a payload and calls onClose regardless of
title, duplicate flag, priority or status. -/
theorem handleSubmit_ignores_submit_gate (s : FormState) (initial : Option Task)
    (now : String) (h1 : finiteNonneg s.revenue) (h2 : finitePos s.timeTaken) :
    ∃ p, (handleSubmit s initial now).1 = some p ∧
      effectsOf (handleSubmit s initial now).1 =
        [Effect.submit p, Effect.close] := by
  rw [handleSubmit_emit s initial now ((isFiniteNonnegNum_iff _).mpr h1)
    ((isFinitePosNum_iff _).mpr h2)]
  exact ⟨emittedPayload s initial now, rfl, rfl⟩

theorem handleSubmit_ignores_submit_gate_witness :
    canSubmit gateFreeState [] none = false ∧
    ∃ p, (handleSubmit gateFreeState none "T").1 = some p ∧
      effectsOf (handleSubmit gateFreeState none "T").1 =
        [Effect.submit p, Effect.close] :=
  ⟨by decide, handleSubmit_ignores_submit_gate gateFreeState none "T"
    ⟨1, rfl, by norm_num⟩ ⟨1, rfl, by norm_num⟩⟩

/-- Claim C10: an open transition in edit mode sets the six field states
from the initial task but leaves the two numeric error-message states
exactly as they were before the transition. -/
theorem openEffect_edit_frame (s : FormState) (init : Task) :
    (openEffect true (some init) s).revenueError = s.revenueError ∧
    (openEffect true (some init) s).timeError = s.timeError ∧
    (openEffect true (some init) s).title = init.title ∧
    (openEffect true (some init) s).revenue = some init.revenue ∧
    (openEffect true (some init) s).timeTaken = some init.timeTaken ∧
    (openEffect true (some init) s).priority = some init.priority ∧
    (openEffect true (some init) s).status = some init.status ∧
    (openEffect true (some init) s).notes = init.notes.getD "" :=
  ⟨rfl, rfl, rfl, rfl, rfl, rfl, rfl, rfl⟩

end TaskForm
